import Mathlib

/-!
Verification of the MirrorMe message-response pipeline.

Shallow embedding of the core components of the repository:
intent classification (`src/response_engine/intent_classifier.py`),
tone matching (`src/response_engine/tone_matcher.py`),
personality training and retrieval (`src/personality_core/personality_engine.py`),
style-embedding search (`src/personality_core/style_embedding.py`),
safety gating (`src/safety/safety_monitor.py`, `content_filter.py`,
`consent_manager.py`), and the orchestrating response generator
(`src/response_engine/response_generator.py`).

Python strings are modelled as Lean `String`; text helpers are written over
`List Char` so that all definitions reduce in the kernel.  Floating-point
vectors are modelled as `List ℚ`.  External capabilities (sentence-embedding
encoder, LLM generation, platform dispatch) are passed in as function
parameters, mirroring the spec, which treats them as opaque.
-/

/-! ## Generic text helpers (modelling Python `str` operations) -/

/-- Lowercase an ASCII letter; other characters are unchanged (models
`str.lower` on the ASCII texts handled by the pipeline). -/
def lowerChar (c : Char) : Char :=
  if 'A' ≤ c && c ≤ 'Z' then Char.ofNat (c.toNat + 32) else c

/-- Model of Python `str.lower`. -/
def lowerS (s : String) : String :=
  ⟨s.data.map lowerChar⟩

/-- Prefix test: `isPrefixB pat l` is true when `pat` is a prefix of `l`. -/
def isPrefixB : List Char → List Char → Bool
  | [], _ => true
  | _ :: _, [] => false
  | a :: as, b :: bs => a == b && isPrefixB as bs

/-- Substring test: `containsSub needle hay` is whether `needle` occurs as a contiguous
substring of `hay` (models Python `needle in hay` and `re.search` on a
literal pattern). -/
def containsSub (needle hay : List Char) : Bool :=
  (List.range (hay.length + 1)).any fun i => isPrefixB needle (hay.drop i)

/-- String-level substring test. -/
def substrB (needle hay : String) : Bool :=
  containsSub needle.data hay.data

/-- One pass of Python `str.replace`, fuelled to make the recursion
structural; occurrences are replaced left to right without overlap. -/
def replaceFuel (pat rep : List Char) : ℕ → List Char → List Char
  | 0, l => l
  | _ + 1, [] => []
  | n + 1, c :: rest =>
    if pat ≠ [] && isPrefixB pat (c :: rest) then
      rep ++ replaceFuel pat rep n ((c :: rest).drop pat.length)
    else
      c :: replaceFuel pat rep n rest

/-- Model of Python `str.replace` (replace all non-overlapping occurrences,
left to right). -/
def replaceS (s pat rep : String) : String :=
  ⟨replaceFuel pat.data rep.data s.data.length s.data⟩

/-- Model of Python `str.startswith` with a tuple of alternatives. -/
def startsWithAny (s : String) (prefixes : List String) : Bool :=
  prefixes.any fun p => isPrefixB p.data s.data

/-- Model of Python `", ".join`-style joining. -/
def joinSep (sep : String) : List String → String
  | [] => ""
  | [x] => x
  | x :: xs => x ++ sep ++ joinSep sep xs

/-- Whitespace characters of Python `str.strip` / regex `\s` (ASCII part). -/
def isSpaceChar (c : Char) : Bool :=
  c == ' ' || c == '\t' || c == '\n' || c == '\r' || c == '\x0b' || c == '\x0c'

/-- Model of Python `str.strip`. -/
def stripS (s : String) : String :=
  ⟨(((s.data.dropWhile isSpaceChar).reverse).dropWhile isSpaceChar).reverse⟩

/-- Truncate to the first `n` characters and append an ellipsis when longer
than `n` (models `s[:n] + "..." if len(s) > n else s`). -/
def truncateWithDots (n : ℕ) (s : String) : String :=
  if n < s.data.length then ⟨s.data.take n⟩ ++ "..." else s

/-! ## Incoming messages

`IncomingMessage` is a loosely-typed dict in the source; absent keys are
modelled with `Option` (Python `message.get(key, default)` becomes
`Option.getD`). -/

structure Message where
  sender : Option String
  platform : Option String
  content : Option String
  context : Option String
  deriving DecidableEq

/-! ## ToneMatcher (`src/response_engine/tone_matcher.py`) -/

/-- The `adjustments` lists of `ToneMatcher.tone_patterns`, keyed by tone
(`tone_patterns.get(tone, {}).get("adjustments", [])`). -/
def toneAdjustments (tone : String) : List String :=
  if tone = "formal" then ["add formality", "use proper grammar", "be respectful"]
  else if tone = "casual" then ["be relaxed", "use contractions", "be friendly"]
  else if tone = "professional" then ["be professional", "be concise", "be clear"]
  else if tone = "friendly" then ["be warm", "be supportive", "be encouraging"]
  else if tone = "urgent" then ["be quick", "be direct", "be responsive"]
  else []

/-- Embeds `ToneMatcher.apply_tone`.  The guards are Python `"formal" in adjustments`
etc., i.e. list-membership tests of a keyword against the adjustment
phrases. -/
def applyTone (response tone : String) : String :=
  if tone = "neutral" then response
  else
    let adjustments := toneAdjustments tone
    if adjustments.contains "formal" then
      if !(startsWithAny response ["Dear", "Hello", "Hi"]) then "Hello, " ++ response
      else response
    else if adjustments.contains "casual" then
      replaceS (replaceS response "Hello" "Hey") "Thank you" "Thanks"
    else if adjustments.contains "professional" then
      if substrB "lol" (lowerS response) then replaceS (replaceS response "lol" "") "LOL" ""
      else response
    else if adjustments.contains "friendly" then
      if !(["😊", "❤️", "👍"].any fun e => substrB e response) then response ++ " 😊"
      else response
    else if adjustments.contains "urgent" then
      if !(substrB "!" response) then response ++ "!"
      else response
    else response

/-- Embeds `ToneMatcher.determine_tone`: base tone from the intent type, then
overridden by context keywords, then by the sender role. -/
def determineTone (intentType : String) (context sender : String) : String :=
  let t0 :=
    if intentType = "greeting" then "friendly"
    else if intentType = "question" then "helpful"
    else if intentType = "request" then "professional"
    else if intentType = "complaint" then "empathetic"
    else if intentType = "urgent" then "urgent"
    else if intentType = "casual" then "casual"
    else "neutral"
  let t1 :=
    if substrB "work" (lowerS context) || substrB "business" (lowerS context) then "professional"
    else if substrB "friend" (lowerS context) || substrB "family" (lowerS context) then "friendly"
    else t0
  if sender = "boss" || sender = "manager" || sender = "supervisor" then "professional"
  else if sender = "friend" || sender = "family" || sender = "close" then "casual"
  else t1

/-! ## IntentClassifier (`src/response_engine/intent_classifier.py`)

All patterns are literal substrings (including the escaped `\?`), so
`re.search(pattern, content, re.IGNORECASE)` on the lowercased content is a
substring test. -/

/-- Embeds `IntentClassifier.intent_patterns`, in declaration order. -/
def intentPatterns : List (String × List String) :=
  [("greeting", ["hi", "hello", "hey", "sup", "what\x27s up", "howdy",
                 "good morning", "good afternoon", "good evening"]),
   ("question", ["?", "what", "how", "why", "when", "where", "who",
                 "can you", "could you", "would you", "do you"]),
   ("request", ["please", "can you", "could you", "would you mind",
                "i need", "i want", "help me", "assist"]),
   ("compliment", ["you\x27re great", "you\x27re awesome", "you\x27re amazing",
                   "thank you", "thanks", "appreciate", "love it"]),
   ("complaint", ["problem", "issue", "wrong", "broken", "doesn\x27t work",
                  "annoying", "frustrated", "angry", "upset"]),
   ("casual", ["lol", "haha", "😄", "😂", "cool", "nice", "awesome",
               "yeah", "sure", "okay", "whatever"]),
   ("urgent", ["asap", "urgent", "emergency", "now", "quick",
               "important", "critical", "immediately"])]

/-- Emoji test of the context block of the classifier (the character-class
ranges of its emoji regex). -/
def isEmojiChar (c : Char) : Bool :=
  (0x1F600 ≤ c.toNat && c.toNat ≤ 0x1F64F) ||
  (0x1F300 ≤ c.toNat && c.toNat ≤ 0x1F5FF) ||
  (0x1F680 ≤ c.toNat && c.toNat ≤ 0x1F6FF) ||
  (0x1F1E0 ≤ c.toNat && c.toNat ≤ 0x1F1FF) ||
  (0x2600 ≤ c.toNat && c.toNat ≤ 0x27BF)

/-- Python `str.isupper`: at least one cased character and no lowercase
cased character (ASCII model). -/
def isUpperS (s : String) : Bool :=
  (s.data.any fun c => c.isUpper || c.isLower) && (s.data.all fun c => !c.isLower)

structure IntentContext where
  isQuestion : Bool
  hasEmoji : Bool
  isCaps : Bool
  length : ℕ
  platform : String
  senderKnown : Bool
  deriving DecidableEq

structure IntentResult where
  type : String
  confidence : ℚ
  scores : List (String × ℕ)
  context : Option IntentContext
  deriving DecidableEq

/-- Python `max(intent_scores, key=intent_scores.get)`: first key of maximal
score in insertion order. -/
def primaryIntent : List (String × ℕ) → String
  | [] => "unknown"
  | s :: rest => (rest.foldl (fun best cur => if best.2 < cur.2 then cur else best) s).1

/-- Maximum score (`max(intent_scores.values())`). -/
def maxScore (scores : List (String × ℕ)) : ℕ :=
  scores.foldl (fun m s => max m s.2) 0

/-- Embeds `IntentClassifier.classify_intent`. -/
def classifyIntent (message : Message) : IntentResult :=
  let content := lowerS (message.content.getD "")
  let sender := message.sender.getD ""
  let platform := message.platform.getD ""
  let intentScores := intentPatterns.map fun p =>
    (p.1, p.2.countP fun pat => substrB pat content)
  let primary := primaryIntent intentScores
  let confidence : ℚ := min ((maxScore intentScores : ℚ) / 3) 1
  { type := primary
    confidence := confidence
    scores := intentScores
    context := some
      { isQuestion := substrB "?" content
        hasEmoji := content.data.any isEmojiChar
        isCaps := isUpperS content
        length := content.data.length
        platform := platform
        senderKnown := sender ≠ "" } }

/-! ## StyleEmbedding (`src/personality_core/style_embedding.py`)

`find_similar` computes `np.dot(q, e) / (np.linalg.norm(q) * np.linalg.norm(e))`.
Norms involve square roots, so the similarity is represented exactly as the
pair `(num, denSq)` denoting the real number `num / sqrt denSq`:
`num` is the dot product and `denSq = ⟨q,q⟩ * ⟨e,e⟩` the squared product of
the two norms.  `simLe` compares two such values as real numbers. -/

/-- Row dot product, `np.dot` on equal-length vectors. -/
def dotProd (a b : List ℚ) : ℚ :=
  (List.zipWith (fun x y => x * y) a b).sum

structure SimVal where
  num : ℚ
  denSq : ℚ
  deriving DecidableEq

/-- Cosine similarity of `q` and `e` in exact representation. -/
def simVal (q e : List ℚ) : SimVal :=
  ⟨dotProd q e, dotProd q q * dotProd e e⟩

/-- Comparison `x ≤ y` for represented values `x.num / sqrt x.denSq` (sign split plus
cross-multiplied squares). -/
def simLe (x y : SimVal) : Prop :=
  (x.num < 0 ∧ 0 ≤ y.num) ∨
  (0 ≤ x.num ∧ 0 ≤ y.num ∧ x.num * x.num * y.denSq ≤ y.num * y.num * x.denSq) ∨
  (x.num < 0 ∧ y.num < 0 ∧ y.num * y.num * x.denSq ≤ x.num * x.num * y.denSq)

instance : DecidableRel simLe := fun x y => by
  unfold simLe
  exact inferInstance

structure StyleState where
  embeddings : List (List ℚ)
  texts : List String
  deriving DecidableEq

/-- Embeds `StyleEmbedding.__init__`. -/
def styleInit : StyleState :=
  ⟨[], []⟩

/-- Embeds `StyleEmbedding.add_text`. -/
def addText (st : StyleState) (text : String) (embedding : List ℚ) : StyleState :=
  ⟨st.embeddings ++ [embedding], st.texts ++ [text]⟩

structure SimResult where
  text : String
  similarity : SimVal
  index : ℕ
  deriving DecidableEq

/-- Python `list.sort(key=lambda x: x[1], reverse=True)`: stable descending
sort on the similarity component. -/
def sortBySimDesc (l : List (ℕ × SimVal)) : List (ℕ × SimVal) :=
  List.insertionSort (fun a b => simLe b.2 a.2) l

/-- Embeds `StyleEmbedding.find_similar`. -/
def findSimilarStyle (st : StyleState) (queryEmbedding : List ℚ) (topK : ℕ) :
    List SimResult :=
  if st.embeddings.isEmpty then []
  else
    let similarities := (List.range st.embeddings.length).map fun i =>
      (i, simVal queryEmbedding (st.embeddings.getD i []))
    let sorted := sortBySimDesc similarities
    (sorted.take topK).map fun p => ⟨st.texts.getD p.1 "", p.2, p.1⟩

/-! ## PersonalityEngine (`src/personality_core/personality_engine.py`)

The module imports `json`, `logging`, `typing`, `pathlib`, `numpy`,
`sentence_transformers`, `openai` and its two siblings — it never imports
`collections.Counter`, yet `_extract_personality_traits` and
`_build_style_patterns` call `Counter(...)`.  Any execution that reaches one
of those calls raises `NameError`, which `train_personality` catches and
converts into a `success: False` result, keeping whatever state mutations
had already happened. -/

/-- A training sample (`item` dict).  `content` is `item.get("content", "")`;
`hasPersonality` records whether the `"personality"` key is present (its
value is never consumed before the `Counter` NameError fires). -/
structure TrainingSample where
  content : Option String
  hasPersonality : Bool
  deriving DecidableEq

/-- Entry of a trait category: primary label plus full distribution. -/
structure TraitEntry where
  primary : String
  distribution : List (String × ℕ)
  deriving DecidableEq

/-- The `traits` dict of `_extract_personality_traits`; `none` fields are the
initial empty sub-dicts. -/
structure Traits where
  communicationStyle : Option TraitEntry
  humorType : Option TraitEntry
  formalityLevel : Option TraitEntry
  energyLevel : Option TraitEntry
  emotionalPatterns : Option TraitEntry
  interests : Option TraitEntry
  values : Option TraitEntry
  emojiPreference : Option (Bool × ℚ)
  deriving DecidableEq

/-- The default scaffold returned when no sample carries a personality
annotation: every category is the empty dict. -/
def traitsScaffold : Traits :=
  ⟨none, none, none, none, none, none, none, none⟩

structure VocabPatterns where
  commonWords : List String
  vocabularySize : ℕ
  wordDiversity : ℚ
  deriving DecidableEq

structure SentencePatterns where
  avgSentenceLength : ℚ
  sentenceLengthVariance : ℚ
  deriving DecidableEq

/-- The `patterns` dict of `_build_style_patterns`; `none` fields are the
initial empty sub-dicts. -/
structure StylePatternsT where
  vocabulary : Option VocabPatterns
  sentenceStructure : Option SentencePatterns
  punctuation : Option (ℕ × ℕ × ℕ)
  emojiPatterns : Option Unit
  responsePatterns : Option Unit
  deriving DecidableEq

/-- The default scaffold returned when no sample has nonempty content. -/
def patternsScaffold : StylePatternsT :=
  ⟨none, none, none, none, none⟩

/-- Store `self.embeddings`: initially a plain Python list (`[]` in `__init__`),
replaced by a numpy array by `_build_embedding_database`.  The distinction
matters because `_find_similar_responses` reads `self.embeddings.size`,
which only exists on the numpy array. -/
inductive EmbStore
  | pylist (rows : List (List ℚ))
  | ndarray (rows : List (List ℚ))
  deriving DecidableEq

/-- Belief counters of `BeliefMatrix` as `(category, label, count)` rows. -/
def BeliefRows := List (String × String × ℕ)

instance : DecidableEq BeliefRows := by
  unfold BeliefRows
  exact inferInstance

/-- Increment the `(category, label)` counter. -/
def bumpBelief (cat lab : String) : List (String × String × ℕ) → List (String × String × ℕ)
  | [] => [(cat, lab, 1)]
  | r :: rest =>
    if r.1 = cat ∧ r.2.1 = lab then (r.1, r.2.1, r.2.2 + 1) :: rest
    else r :: bumpBelief cat lab rest

/-- Embeds `BeliefMatrix._extract_beliefs_from_text`. -/
def extractBeliefsFromText (bs : List (String × String × ℕ)) (text : String) :
    List (String × String × ℕ) :=
  let t := lowerS text
  let b1 := if ["liberal", "progressive", "left"].any (fun w => substrB w t) then
    bumpBelief "politics" "liberal" bs else bs
  let b2 := if ["conservative", "republican", "right"].any (fun w => substrB w t) then
    bumpBelief "politics" "conservative" b1 else b1
  let b3 := if ["equality", "justice", "rights"].any (fun w => substrB w t) then
    bumpBelief "social" "equality" b2 else b2
  let b4 := if ["tradition", "family", "values"].any (fun w => substrB w t) then
    bumpBelief "social" "traditional" b3 else b3
  let b5 := if ["capitalism", "free market", "business"].any (fun w => substrB w t) then
    bumpBelief "economics" "capitalist" b4 else b4
  if ["socialism", "welfare", "government"].any (fun w => substrB w t) then
    bumpBelief "economics" "socialist" b5 else b5

/-- Embeds `BeliefMatrix.build_from_data` (its own `try/except` means it never
propagates a fault). -/
def buildBeliefs (bs : List (String × String × ℕ)) (data : List TrainingSample) :
    List (String × String × ℕ) :=
  data.foldl (fun b item =>
    let content := item.content.getD ""
    if content ≠ "" then extractBeliefsFromText b content else b) bs

/-- State of a `PersonalityEngine` instance. -/
structure EngineState where
  modelName : String
  sentenceModelLoaded : Bool
  personalityProfile : Option Traits
  stylePatterns : Option StylePatternsT
  trained : Bool
  embeddings : EmbStore
  texts : List String
  beliefs : List (String × String × ℕ)
  deriving DecidableEq

/-- Embeds `PersonalityEngine.__init__` (`personality_profile = {}`,
`style_patterns = {}`, `trained = False`, `embeddings = []`, `texts = []`). -/
def initEngineState : EngineState :=
  { modelName := "all-MiniLM-L6-v2"
    sentenceModelLoaded := false
    personalityProfile := none
    stylePatterns := none
    trained := false
    embeddings := EmbStore.pylist []
    texts := []
    beliefs := [] }

/-- The error raised at the first `Counter(...)` call. -/
def counterNameError : String :=
  "NameError: name Counter is not defined"

/-- Embeds `PersonalityEngine._extract_personality_traits`.  With no
personality-annotated sample the initial `traits` scaffold is returned;
otherwise the first `Counter` use raises `NameError` before any trait field
is filled in. -/
def extractPersonalityTraits (data : List TrainingSample) : Except String Traits :=
  if data.any (·.hasPersonality) then Except.error counterNameError
  else Except.ok traitsScaffold

/-- Embeds `PersonalityEngine._build_style_patterns`.  With no nonempty-content
sample the initial `patterns` scaffold is returned; otherwise
`Counter(all_words)` raises `NameError` before any pattern field is filled
in. -/
def buildStylePatterns (data : List TrainingSample) : Except String StylePatternsT :=
  if data.any (fun s => s.content.getD "" ≠ "") then Except.error counterNameError
  else Except.ok patternsScaffold

/-- Embeds `PersonalityEngine._build_embedding_database`: keep trimmed contents of
length > 10, encode them through the external embedding capability and
replace both parallel arrays; with no surviving text the store is left
untouched. -/
def buildEmbeddingDatabase (encode : List String → List (List ℚ))
    (st : EngineState) (data : List TrainingSample) : EngineState :=
  if !st.sentenceModelLoaded then st
  else
    let texts := data.filterMap fun item =>
      let content := item.content.getD ""
      if content ≠ "" ∧ 10 < (stripS content).data.length then some (stripS content)
      else none
    if texts.isEmpty then st
    else { st with embeddings := EmbStore.ndarray (encode texts), texts := texts }

/-- Outcome dict of `train_personality`. -/
inductive TrainResult
  | success (trainingSamples : ℕ)
  | failure (error : String)
  deriving DecidableEq

/-- Embeds `PersonalityEngine.train_personality`.  The stages run in sequence and
each assignment lands immediately; the surrounding `try/except` converts a
stage fault into a failure result, keeping all previously assigned state.
Loading the sentence-transformer model and the embedding `encode` call are
external capabilities, modelled as always succeeding. -/
def trainPersonality (encode : List String → List (List ℚ))
    (st0 : EngineState) (data : List TrainingSample) : EngineState × TrainResult :=
  let st1 := { st0 with sentenceModelLoaded := true }
  match extractPersonalityTraits data with
  | Except.error e => (st1, TrainResult.failure e)
  | Except.ok traits =>
    let st2 := { st1 with personalityProfile := some traits }
    match buildStylePatterns data with
    | Except.error e => (st2, TrainResult.failure e)
    | Except.ok pats =>
      let st3 := { st2 with stylePatterns := some pats }
      let st4 := { st3 with beliefs := buildBeliefs st3.beliefs data }
      let st5 := buildEmbeddingDatabase encode st4 data
      ({ st5 with trained := true }, TrainResult.success data.length)

/-- Embeds `PersonalityEngine.is_trained`. -/
def isTrained (st : EngineState) : Bool :=
  st.trained

/-- Ascending `np.argsort` over the similarity scores, modelled with a
stable sort (the numpy quicksort leaves the order of equal keys
unspecified). -/
def argsortAsc (key : List ℚ) : List ℕ :=
  List.insertionSort (fun i j => key.getD i 0 ≤ key.getD j 0) (List.range key.length)

/-- Embeds `np.argsort(similarities)[-5:][::-1]`. -/
def topFiveDesc (key : List ℚ) : List ℕ :=
  ((argsortAsc key).drop ((argsortAsc key).length - 5)).reverse

/-- Dot-product scores of every stored row against the query
(`np.dot(self.embeddings, input_embedding.T).flatten()`). -/
def simScores (embs : List (List ℚ)) (q : List ℚ) : List ℚ :=
  embs.map fun e => dotProd e q

/-- Core of `_find_similar_responses`: top-5 indices by raw dot product,
filtered by `similarities[idx] > 0.3`, mapped to the stored texts. -/
def findSimilarCore (embs : List (List ℚ)) (texts : List String) (q : List ℚ) :
    List String :=
  let sims := simScores embs q
  ((topFiveDesc sims).filter fun i => (3 : ℚ)/10 < sims.getD i 0).map fun i =>
    texts.getD i ""

/-- Embeds `PersonalityEngine._find_similar_responses`.  Reading
`self.embeddings.size` on the initial plain list raises `AttributeError`
(only numpy arrays have `.size`); `not self.sentence_model` short-circuits
first. -/
def findSimilarResponses (st : EngineState) (encode1 : String → List ℚ)
    (inputText : String) : Except String (List String) :=
  if !st.sentenceModelLoaded then Except.ok []
  else
    match st.embeddings with
    | EmbStore.pylist _ => Except.error "AttributeError: list object has no attribute size"
    | EmbStore.ndarray rows =>
      if rows.isEmpty then Except.ok []
      else Except.ok (findSimilarCore rows st.texts (encode1 inputText))

/-- The canned per-mood fallback table of `_generate_fallback_response`;
`np.random.choice` is modelled by the injected index `pick`. -/
def fallbackResponses (mood : String) : List String :=
  if mood = "energetic" then ["YES! 🔥", "Absolutely! 💯", "Let\x27s go! 🚀"]
  else if mood = "savage" then ["Obviously.", "Duh.", "Sure, whatever."]
  else if mood = "unhinged" then ["😵‍💫", "🤯", "💥"]
  else if mood = "professional" then ["Understood.", "I\x27ll take care of that.", "Noted."]
  else if mood = "casual" then ["Cool!", "Got it!", "Sounds good!"]
  else ["Got it!", "Sure thing!", "Makes sense."]

/-- Embeds `PersonalityEngine._generate_fallback_response`. -/
def generateFallbackResponse (mood : String) (pick : ℕ) : String :=
  let rs := fallbackResponses mood
  rs.getD (pick % rs.length) "Got it!"

/-- Embeds `PersonalityEngine._generate_with_personality`.  The prompt string built
from the profile, the mood modifier and up to three exemplars feeds the
external OpenAI capability, which is opaque (spec §1); it is modelled as the
oracle `llm` receiving the prompt ingredients.  An oracle fault falls back
to the canned table. -/
def generateWithPersonality (llm : String → String → String → List String → Option String)
    (pick : ℕ) (inputText context mood : String) (similar : List String) : String :=
  match llm inputText context mood (similar.take 3) with
  | some resp => resp
  | none => generateFallbackResponse mood pick

/-- Embeds `PersonalityEngine.generate_response`. -/
def generateResponse (llm : String → String → String → List String → Option String)
    (pick : ℕ) (st : EngineState) (encode1 : String → List ℚ)
    (inputText context mood : String) : String :=
  if !st.trained then "I\x27m still learning your personality. Please train me first!"
  else
    match findSimilarResponses st encode1 inputText with
    | Except.error _ => "Sorry, I\x27m having trouble responding right now."
    | Except.ok similar => generateWithPersonality llm pick inputText context mood similar

/-! ## ConsentManager (`src/safety/consent_manager.py`) -/

structure ConsentRecord where
  timestamp : String
  sender : String
  platform : Option String
  action : String
  deriving DecidableEq

structure ConsentState where
  consentedContacts : List String
  consentHistory : List ConsentRecord
  deriving DecidableEq

/-- Embeds `ConsentManager.__init__`. -/
def initConsentState : ConsentState :=
  ⟨[], []⟩

structure ConsentResult where
  consented : Bool
  reason : String
  deriving DecidableEq

/-- Embeds `ConsentManager.check_consent`: explicit opt-in first, then the
empty-sender guard, then platform-based consent. -/
def checkConsent (cs : ConsentState) (message : Message) : ConsentResult :=
  let sender := message.sender.getD ""
  let platform := message.platform.getD ""
  if sender ∈ cs.consentedContacts then ⟨true, "Sender has previously consented"⟩
  else if sender = "" then ⟨false, "Unknown sender"⟩
  else if platform = "discord" ∨ platform = "email" ∨ platform = "slack" then
    ⟨true, "Platform-based consent"⟩
  else ⟨false, "No consent on file for this sender"⟩

/-- Embeds `ConsentManager.add_consent` (`self.consented_contacts.add(sender)` with
no guard on the sender value). -/
def addConsent (now : String) (cs : ConsentState) (sender platform : String) : ConsentState :=
  { consentedContacts :=
      if sender ∈ cs.consentedContacts then cs.consentedContacts
      else cs.consentedContacts ++ [sender]
    consentHistory := cs.consentHistory ++ [⟨now, sender, some platform, "consent_granted"⟩] }

/-- Embeds `ConsentManager.remove_consent`. -/
def removeConsent (now : String) (cs : ConsentState) (sender : String) : ConsentState :=
  { consentedContacts := cs.consentedContacts.filter (· ≠ sender)
    consentHistory := cs.consentHistory ++ [⟨now, sender, none, "consent_revoked"⟩] }

/-! ## ContentFilter (`src/safety/content_filter.py`)

Every pattern in both lists is a literal lowercase string, so
`re.search(pattern, content_lower, re.IGNORECASE)` is a substring test on
the lowercased content. -/

def harmfulPatterns : List String :=
  ["kill yourself", "commit suicide", "self harm",
   "i hate you", "you\x27re worthless", "you\x27re stupid",
   "racist", "sexist", "homophobic", "transphobic",
   "nazi", "hitler", "white supremacy"]

def inappropriatePatterns : List String :=
  ["porn", "sex", "nude", "explicit",
   "drugs", "cocaine", "heroin", "weed",
   "violence", "murder", "assault"]

structure ContentResult where
  safe : Bool
  reason : String
  harmfulFound : List String
  inappropriateFound : List String
  deriving DecidableEq

/-- Embeds `ContentFilter._get_reason`. -/
def contentReason (harmful inappropriate : List String) : String :=
  if !harmful.isEmpty then "Harmful content detected: " ++ joinSep ", " harmful
  else if !inappropriate.isEmpty then
    "Inappropriate content detected: " ++ joinSep ", " inappropriate
  else ""

/-- Embeds `ContentFilter.check_content`. -/
def checkContent (content : String) : ContentResult :=
  let contentLower := lowerS content
  let harmfulFound := harmfulPatterns.filter fun p => substrB p contentLower
  let inappropriateFound := inappropriatePatterns.filter fun p => substrB p contentLower
  { safe := harmfulFound.isEmpty && inappropriateFound.isEmpty
    reason := contentReason harmfulFound inappropriateFound
    harmfulFound := harmfulFound
    inappropriateFound := inappropriateFound }

/-! ## Regex matchers of the redline and relationship checks

A matcher consumes characters from the front of a suffix and returns the
set of possible remainders; `regexSearch` tries every start position with
`\b` word-boundary conditions on both ends, which is exactly the
match-existence semantics of `re.search` for these patterns. -/

/-- Regex `\w` (ASCII model). -/
def isWordChar (c : Char) : Bool :=
  c.isAlphanum || c == '_'

/-- Whether position `i` of `s` holds a word character. -/
def wordAt (s : List Char) (i : ℕ) : Bool :=
  match s.get? i with
  | some c => isWordChar c
  | none => false

/-- Regex `\b` between positions `i - 1` and `i`. -/
def boundaryAt (s : List Char) (i : ℕ) : Bool :=
  (if i = 0 then false else wordAt s (i - 1)) != wordAt s i

def CharMatcher := List Char → List (List Char)

/-- Match one character of a class. -/
def mChar (p : Char → Bool) : CharMatcher := fun l =>
  match l with
  | [] => []
  | c :: rest => if p c then [rest] else []

/-- Sequential composition. -/
def mSeq (m1 m2 : CharMatcher) : CharMatcher := fun l =>
  ((m1 l).map m2).flatten

/-- Repetition `m` exactly `n` times. -/
def mRep (m : CharMatcher) : ℕ → CharMatcher
  | 0 => fun l => [l]
  | n + 1 => mSeq m (mRep m n)

/-- Optional occurrence of `m`. -/
def mOpt (m : CharMatcher) : CharMatcher := fun l =>
  l :: m l

/-- Plus quantifier on a class: consume between 1 and all leading class characters. -/
def mPlus (p : Char → Bool) : CharMatcher := fun l =>
  (List.range (l.takeWhile p).length).map fun k => l.drop (k + 1)

/-- Bounded-below quantifier on a class: consume at least `n` leading class characters. -/
def mAtLeast (p : Char → Bool) (n : ℕ) : CharMatcher := fun l =>
  let run := (l.takeWhile p).length
  if run < n then []
  else (List.range (run - n + 1)).map fun k => l.drop (n + k)

/-- Existence of a match of `\b … \b` anywhere in `s`. -/
def regexSearch (m : CharMatcher) (s : List Char) : Bool :=
  (List.range (s.length + 1)).any fun i =>
    boundaryAt s i && ((m (s.drop i)).any fun rest => boundaryAt s (s.length - rest.length))

/-- Optional whitespace-or-dash separator of the credit-card and phone patterns. -/
def mSep : CharMatcher :=
  mOpt (mChar fun c => isSpaceChar c || c == '-')

/-- Matcher for the SSN-shaped pattern (three digits, dash, two digits, dash, four digits, word boundaries). -/
def ssnMatcher : CharMatcher :=
  mSeq (mRep (mChar Char.isDigit) 3) (mSeq (mChar (· == '-'))
    (mSeq (mRep (mChar Char.isDigit) 2) (mSeq (mChar (· == '-'))
      (mRep (mChar Char.isDigit) 4))))

/-- Matcher for the credit-card-shaped pattern (four groups of four digits with optional separators). -/
def creditCardMatcher : CharMatcher :=
  mSeq (mRep (mChar Char.isDigit) 4) (mSeq mSep
    (mSeq (mRep (mChar Char.isDigit) 4) (mSeq mSep
      (mSeq (mRep (mChar Char.isDigit) 4) (mSeq mSep
        (mRep (mChar Char.isDigit) 4))))))

/-- Matcher for the phone-shaped pattern (3-3-4 digits with optional separators). -/
def phoneMatcher : CharMatcher :=
  mSeq (mRep (mChar Char.isDigit) 3) (mSeq mSep
    (mSeq (mRep (mChar Char.isDigit) 3) (mSeq mSep
      (mRep (mChar Char.isDigit) 4))))

/-- Matcher for the email-shaped pattern; the final character class of the
source regex literally contains the bar character. -/
def emailMatcher : CharMatcher :=
  mSeq (mPlus fun c => c.isAlphanum || c == '.' || c == '_' || c == '%' || c == '+' || c == '-')
    (mSeq (mChar (· == '@'))
      (mSeq (mPlus fun c => c.isAlphanum || c == '.' || c == '-')
        (mSeq (mChar (· == '.'))
          (mAtLeast (fun c => c.isAlpha || c == '|') 2))))

/-- The four personal-information patterns of `_check_redlines`, matched
against the original (non-lowercased) response. -/
def piiSearch (response : String) : Bool :=
  regexSearch ssnMatcher response.data || regexSearch creditCardMatcher response.data ||
  regexSearch phoneMatcher response.data || regexSearch emailMatcher response.data

/-! ## SafetyMonitor (`src/safety/safety_monitor.py`) -/

structure CheckRes where
  safe : Bool
  reason : String
  deriving DecidableEq

/-- Embeds `SafetyMonitor._check_redlines`.  Here `self.redlines` is a Python set; it is
modelled as a list, its iteration order fixed to the literal order of
`_load_default_settings`. -/
def checkRedlines (redlines : List String) (response : String) : CheckRes :=
  let responseLower := lowerS response
  match redlines.find? (fun t => substrB t responseLower) with
  | some t => ⟨false, "Contains redline term: " ++ t⟩
  | none =>
    if piiSearch response then ⟨false, "Contains potential personal information"⟩
    else ⟨true, ""⟩

/-- The `risk_phrases` list of `_check_relationship_risks`. -/
def riskPhrases : List String :=
  ["i hate you", "you\x27re stupid", "you\x27re wrong", "i don\x27t care",
   "whatever", "i don\x27t want to talk to you", "leave me alone",
   "you\x27re annoying", "i\x27m done with you", "goodbye forever"]

/-- Embeds `SafetyMonitor._check_relationship_risks` (the aggressive-tone heuristic
counts `!`, looks for the literal substring `CAPS`, and searches
`\b[A-Z]{3,}\b`). -/
def checkRelationshipRisks (response : String) (_originalMessage : Message) : CheckRes :=
  let responseLower := lowerS response
  match riskPhrases.find? (fun p => substrB p responseLower) with
  | some p => ⟨false, "Contains relationship risk phrase: " ++ p⟩
  | none =>
    let aggressive :=
      (3 < response.data.count '!') ||
      containsSub "CAPS".data response.data ||
      regexSearch (mAtLeast Char.isUpper 3) response.data
    if aggressive then ⟨false, "Aggressive tone detected"⟩ else ⟨true, ""⟩

/-- Default redline terms of `_load_default_settings` (a Python set literal;
list order fixed to the source order). -/
def defaultRedlines : List String :=
  ["passwords", "credit cards", "social security", "bank account",
   "personal address", "phone number", "family secrets",
   "confidential information", "trade secrets", "private keys"]

/-- Default sensitive topics of `_load_default_settings`. -/
def defaultSensitiveTopics : List String :=
  ["politics", "religion", "money", "health", "relationships",
   "work conflicts", "legal issues", "family problems"]

structure SafetyEvent where
  timestamp : String
  response : String
  originalMessage : String
  sender : String
  platform : String
  safe : Bool
  reason : String
  flags : List String
  deriving DecidableEq

structure SafetyResult where
  safe : Bool
  reason : String
  confidence : ℚ
  flags : List String
  deriving DecidableEq

structure SafetyState where
  safetyMode : String
  redlines : List String
  sensitiveTopics : List String
  safetyEvents : List SafetyEvent
  consent : ConsentState
  deriving DecidableEq

/-- Embeds `SafetyMonitor.__init__` plus `_load_default_settings`. -/
def initSafetyState : SafetyState :=
  { safetyMode := "strict"
    redlines := defaultRedlines
    sensitiveTopics := defaultSensitiveTopics
    safetyEvents := []
    consent := initConsentState }

/-- The event dict built by `_log_safety_event`. -/
def mkSafetyEvent (now : String) (response : String) (originalMessage : Message)
    (result : SafetyResult) : SafetyEvent :=
  { timestamp := now
    response := truncateWithDots 200 response
    originalMessage := truncateWithDots 100 (originalMessage.content.getD "")
    sender := originalMessage.sender.getD "unknown"
    platform := originalMessage.platform.getD "unknown"
    safe := result.safe
    reason := result.reason
    flags := result.flags }

/-- Embeds `SafetyMonitor._log_safety_event`: append, then keep only the last 1000
events. -/
def logSafetyEvent (events : List SafetyEvent) (event : SafetyEvent) : List SafetyEvent :=
  let appended := events ++ [event]
  if 1000 < appended.length then appended.drop (appended.length - 1000) else appended

/-- Embeds `SafetyMonitor.check_response`: the four checks run unconditionally in
the fixed order redlines → content filter → consent → relationship risk;
each failing check overwrites `reason` and appends its flag; the event is
logged whatever the outcome. -/
def checkResponse (now : String) (st : SafetyState) (response : String)
    (originalMessage : Message) : SafetyResult × SafetyState :=
  let r0 : SafetyResult := ⟨true, "", 1, []⟩
  let redlineCheck := checkRedlines st.redlines response
  let r1 := if redlineCheck.safe then r0 else
    ⟨false, "Redline violation: " ++ redlineCheck.reason, r0.confidence, r0.flags ++ ["redline"]⟩
  let contentCheck := checkContent response
  let r2 := if contentCheck.safe then r1 else
    ⟨false, "Content filter: " ++ contentCheck.reason, r1.confidence, r1.flags ++ ["content"]⟩
  let consentCheck := checkConsent st.consent originalMessage
  let r3 := if consentCheck.consented then r2 else
    ⟨false, "Consent issue: " ++ consentCheck.reason, r2.confidence, r2.flags ++ ["consent"]⟩
  let relationshipCheck := checkRelationshipRisks response originalMessage
  let r4 := if relationshipCheck.safe then r3 else
    ⟨false, "Relationship risk: " ++ relationshipCheck.reason, r3.confidence,
      r3.flags ++ ["relationship"]⟩
  let event := mkSafetyEvent now response originalMessage r4
  (r4, { st with safetyEvents := logSafetyEvent st.safetyEvents event })

/-! ## ResponseGenerator (`src/response_engine/response_generator.py`) -/

structure HistoryEntry where
  timestamp : String
  platform : String
  originalMessage : Message
  response : String
  intent : IntentResult
  mood : String
  autoReply : Bool
  deriving DecidableEq

/-- Embeds `ResponseGenerator._log_response`: append the entry, then keep only the
last 1000 entries. -/
def logResponse (history : List HistoryEntry) (entry : HistoryEntry) : List HistoryEntry :=
  let appended := history ++ [entry]
  if 1000 < appended.length then appended.drop (appended.length - 1000) else appended

/-- State of a `ResponseGenerator` instance. -/
structure RGState where
  autoReplyEnabled : Bool
  overrideRequired : Bool
  currentMood : String
  responseHistory : List HistoryEntry
  personalityEngine : Option EngineState

/-- Embeds `ResponseGenerator.__init__` (auto-reply off, no override, default mood,
no personality engine attached yet). -/
def initRGState : RGState :=
  { autoReplyEnabled := false
    overrideRequired := false
    currentMood := "default"
    responseHistory := []
    personalityEngine := none }

/-- Result dict of `process_incoming_message`. -/
structure ProcessResult where
  action : String
  reason : Option String
  intent : Option IntentResult
  response : Option String
  error : Option String
  message : Message

/-- Output of one `process_incoming_message` invocation, instrumented with
call counts for the generation capability (`_generate_response`) and the
dispatch capability (`_send_response`). -/
structure ProcOut where
  result : ProcessResult
  genCalls : ℕ
  sendCalls : ℕ
  rgState : RGState
  safetyState : Option SafetyState

/-- Embeds `ResponseGenerator._generate_response`: tone from intent/context/sender,
personality-grounded generation, then tone adjustment; without an attached
personality engine a fixed placeholder is returned. -/
def generateResponseRG (llm : String → String → String → List String → Option String)
    (pick : ℕ) (encode1 : String → List ℚ) (rg : RGState) (message : Message)
    (intent : IntentResult) : String :=
  match rg.personalityEngine with
  | none => "I\x27m still learning how to respond like you!"
  | some engine =>
    let content := message.content.getD ""
    let sender := message.sender.getD ""
    let context := message.context.getD ""
    let tone := determineTone intent.type context sender
    let response := generateResponse llm pick engine encode1 content context rg.currentMood
    applyTone response tone

/-- Embeds `ResponseGenerator.process_incoming_message`.  The auto-reply gate comes
right after intent classification; the safety check runs only when a safety
monitor is attached (`if self.safety_monitor:`); dispatch and history
logging happen only on the sent path.  The body is pure, so the
`except`-to-error branch is unreachable in the model. -/
def processIncomingMessage (llm : String → String → String → List String → Option String)
    (pick : ℕ) (encode1 : String → List ℚ) (now : String) (rg : RGState)
    (sm : Option SafetyState) (message : Message) (platform : String) : ProcOut :=
  let intent := classifyIntent message
  if !rg.autoReplyEnabled then
    { result := ⟨"manual_review", some "Auto-reply disabled", some intent, none, none, message⟩
      genCalls := 0, sendCalls := 0, rgState := rg, safetyState := sm }
  else
    let response := generateResponseRG llm pick encode1 rg message intent
    let afterSafety : Option String × Option SafetyState :=
      match sm with
      | some s =>
        let checked := checkResponse now s response message
        (if checked.1.safe then none else some checked.1.reason, some checked.2)
      | none => (none, none)
    match afterSafety.1 with
    | some unsafeReason =>
      { result := ⟨"manual_review", some ("Safety concern: " ++ unsafeReason), some intent,
          some response, none, message⟩
        genCalls := 1, sendCalls := 0, rgState := rg, safetyState := afterSafety.2 }
    | none =>
      if rg.overrideRequired then
        { result := ⟨"manual_approval", none, some intent, some response, none, message⟩
          genCalls := 1, sendCalls := 0, rgState := rg, safetyState := afterSafety.2 }
      else
        let entry : HistoryEntry :=
          ⟨now, platform, message, response, intent, rg.currentMood, rg.autoReplyEnabled⟩
        { result := ⟨"sent", none, some intent, some response, none, message⟩
          genCalls := 1, sendCalls := 1
          rgState := { rg with responseHistory := logResponse rg.responseHistory entry }
          safetyState := afterSafety.2 }

/-! ## Theorems -/

/-- The membership guards of `apply_tone` test the keyword against the
adjustment-phrase lists, where it never occurs, so every branch body is
dead code. -/
lemma toneAdjustments_guards_false (tone : String) :
    "formal" ∉ toneAdjustments tone ∧
    "casual" ∉ toneAdjustments tone ∧
    "professional" ∉ toneAdjustments tone ∧
    "friendly" ∉ toneAdjustments tone ∧
    "urgent" ∉ toneAdjustments tone := by
  unfold toneAdjustments
  split
  · decide
  split
  · decide
  split
  · decide
  split
  · decide
  split
  · decide
  · decide

/-- Identity behaviour: `apply_tone` returns its input unchanged for every tone. -/
lemma applyTone_eq_self (r t : String) : applyTone r t = r := by
  obtain ⟨h1, h2, h3, h4, h5⟩ := toneAdjustments_guards_false t
  unfold applyTone
  by_cases h0 : t = "neutral"
  · simp [h0]
  · simp [h0, h1, h2, h3, h4, h5]

/-- C5: the claimed per-tone edits never happen.  On the failing input
(`"Need this done today"` with tone `"urgent"`, no `"!"` present) the claim
requires `"!"` to be appended, but `apply_tone` returns the text unchanged:
each guard such as `"urgent" in adjustments` tests list membership of the
keyword against the adjustment phrases (`["be quick", "be direct",
"be responsive"]`), which never holds, so no edit branch is reachable for
any tone. -/
theorem applyTone_urgent_makes_no_edit :
    applyTone "Need this done today" "urgent" = "Need this done today" := by
  decide

/-- C6: `apply_tone` is idempotent — for every response `x` and fixed tone
`t`, `apply_tone (apply_tone x t) t = apply_tone x t`. -/
theorem applyTone_idempotent (x t : String) :
    applyTone (applyTone x t) t = applyTone x t := by
  rw [applyTone_eq_self (applyTone x t) t]

/-- C9 counterexample: `add_consent("")` puts the empty string into the
opt-in set with no guard, and `check_consent` consults that set before its
empty-sender check, so in the state reached by the call sequence
`add_consent("")` a message with empty sender is reported consented. -/
theorem checkConsent_emptySender_counterexample :
    (checkConsent (addConsent "t0" initConsentState "" "discord")
      ⟨some "", some "discord", none, none⟩).consented = true := by
  decide

/-- C9 (amended): in every consent state whose opt-in set does not contain
the empty string — in particular every state reached without an explicit
`add_consent("")` call — `check_consent` reports a message with empty
sender not consented, regardless of platform. -/
theorem checkConsent_emptySender_not_consented
    (cs : ConsentState) (message : Message)
    (hmem : "" ∉ cs.consentedContacts) (hsender : message.sender = some "") :
    (checkConsent cs message).consented = false := by
  simp [checkConsent, hsender, hmem]

/-- Witness for C9 (amended) at the initial consent state. -/
theorem checkConsent_emptySender_not_consented_witness :
    (checkConsent initConsentState ⟨some "", some "discord", none, none⟩).consented = false :=
  checkConsent_emptySender_not_consented initConsentState
    ⟨some "", some "discord", none, none⟩ (by decide) rfl

/-- C7: `check_response` runs redlines, content filter, consent and
relationship risk unconditionally in that order; the verdict is unsafe iff
at least one check fails, and the reported reason is that of the last check
in this order that fails (each failing check overwrites the reason of
earlier failing checks). -/
theorem checkResponse_unsafe_iff_and_last_reason
    (now : String) (st : SafetyState) (response : String) (message : Message) :
    ((checkResponse now st response message).1.safe = false ↔
      ((checkRedlines st.redlines response).safe = false ∨
       (checkContent response).safe = false ∨
       (checkConsent st.consent message).consented = false ∨
       (checkRelationshipRisks response message).safe = false)) ∧
    (checkResponse now st response message).1.reason =
      (if (checkRelationshipRisks response message).safe = false then
        "Relationship risk: " ++ (checkRelationshipRisks response message).reason
       else if (checkConsent st.consent message).consented = false then
        "Consent issue: " ++ (checkConsent st.consent message).reason
       else if (checkContent response).safe = false then
        "Content filter: " ++ (checkContent response).reason
       else if (checkRedlines st.redlines response).safe = false then
        "Redline violation: " ++ (checkRedlines st.redlines response).reason
       else "") := by
  cases h1 : (checkRedlines st.redlines response).safe <;>
    cases h2 : (checkContent response).safe <;>
      cases h3 : (checkConsent st.consent message).consented <;>
        cases h4 : (checkRelationshipRisks response message).safe <;>
          simp [checkResponse, h1, h2, h3, h4]

/-- The shared append-then-truncate shape of `_log_response` and
`_log_safety_event` (both logs keep the last `cap` entries, `cap = 1000`). -/
def appendTrunc (cap : ℕ) (log : List α) (e : α) : List α :=
  let appended := log ++ [e]
  if cap < appended.length then appended.drop (appended.length - cap) else appended

/-- One append step preserves the "last `cap` of everything appended so far"
invariant. -/
lemma appendTrunc_lastStep {α : Type} (cap : ℕ) (hcap : 0 < cap)
    (all : List α) (e : α) :
    appendTrunc cap (all.drop (all.length - cap)) e
      = (all ++ [e]).drop ((all ++ [e]).length - cap) := by
  unfold appendTrunc
  have hlen : (all.drop (all.length - cap)).length = all.length - (all.length - cap) :=
    List.length_drop _ _
  by_cases hc : all.length < cap
  · have h1 : all.length - cap = 0 := by omega
    have h2 : (all ++ [e]).length - cap = 0 := by
      simp only [List.length_append, List.length_singleton]
      omega
    rw [h1, h2]
    simp only [List.drop_zero, List.length_append, List.length_singleton]
    rw [if_neg (by omega)]
  · have hge : cap ≤ all.length := by omega
    have hAppLen : (all.drop (all.length - cap) ++ [e]).length = cap + 1 := by
      simp only [List.length_append, List.length_singleton, hlen]
      omega
    rw [if_pos (by omega)]
    rw [hAppLen]
    have hdropped : (all.drop (all.length - cap)).length = cap := by omega
    rw [List.drop_append_of_le_length (by omega)]
    rw [List.drop_drop]
    have h3 : (all ++ [e]).length - cap = all.length + 1 - cap := by
      simp only [List.length_append, List.length_singleton]
    rw [h3, List.drop_append_of_le_length (by omega)]
    have h4 : all.length - cap + (cap + 1 - cap) = all.length + 1 - cap := by omega
    rw [h4]

/-- Folding append-then-truncate over a stream, starting from the last `cap`
of a prefix, yields the last `cap` of the whole stream. -/
lemma foldl_appendTrunc {α : Type} (cap : ℕ) (hcap : 0 < cap)
    (all l : List α) :
    List.foldl (appendTrunc cap) (all.drop (all.length - cap)) l
      = (all ++ l).drop ((all ++ l).length - cap) := by
  induction l generalizing all with
  | nil => simp
  | cons e l ih =>
    rw [List.foldl_cons, appendTrunc_lastStep cap hcap all e]
    have := ih (all ++ [e])
    simpa [List.append_assoc] using this

/-- C8: both the response history log and the safety event log are bounded
FIFO logs: after any sequence of appends starting from the empty log, the
stored entries are exactly the last 1000 appended, in insertion order
(`drop (N - 1000)` is the whole stream for `N ≤ 1000`), and the length is
`min N 1000`. -/
theorem logs_keep_last_1000 :
    (∀ es : List HistoryEntry,
        List.foldl logResponse [] es = es.drop (es.length - 1000) ∧
        (List.foldl logResponse [] es).length = min es.length 1000) ∧
    (∀ fs : List SafetyEvent,
        List.foldl logSafetyEvent [] fs = fs.drop (fs.length - 1000) ∧
        (List.foldl logSafetyEvent [] fs).length = min fs.length 1000) := by
  constructor
  · intro es
    have heq : List.foldl logResponse [] es = List.foldl (appendTrunc 1000) [] es := rfl
    have h0 : (([] : List HistoryEntry).drop (([] : List HistoryEntry).length - 1000)) =
        ([] : List HistoryEntry) := rfl
    have := foldl_appendTrunc 1000 (by omega) ([] : List HistoryEntry) es
    rw [h0] at this
    simp only [List.nil_append] at this
    refine ⟨heq.trans this, ?_⟩
    rw [heq.trans this, List.length_drop]
    omega
  · intro fs
    have heq : List.foldl logSafetyEvent [] fs = List.foldl (appendTrunc 1000) [] fs := rfl
    have h0 : (([] : List SafetyEvent).drop (([] : List SafetyEvent).length - 1000)) =
        ([] : List SafetyEvent) := rfl
    have := foldl_appendTrunc 1000 (by omega) ([] : List SafetyEvent) fs
    rw [h0] at this
    simp only [List.nil_append] at this
    refine ⟨heq.trans this, ?_⟩
    rw [heq.trans this, List.length_drop]
    omega

/-- With no nonempty-content sample, the embedding filter keeps no text and
`_build_embedding_database` leaves the store untouched. -/
lemma buildEmbeddingDatabase_no_content (encode : List String → List (List ℚ))
    (st : EngineState) (data : List TrainingSample)
    (h : data.any (fun s => s.content.getD "" ≠ "") = false) :
    buildEmbeddingDatabase encode st data = st := by
  unfold buildEmbeddingDatabase
  have hnil : (data.filterMap fun item =>
      let content := item.content.getD ""
      if content ≠ "" ∧ 10 < (stripS content).data.length then some (stripS content)
      else none) = [] := by
    rw [List.filterMap_eq_nil_iff]
    intro a ha
    have hempty : a.content.getD "" = "" := by
      have hfalse := List.any_eq_false.mp h a ha
      simpa using hfalse
    simp [hempty]
  rw [hnil]
  simp

/-- C2 counterexample: training on one contentful, personality-free sample
fails at the style-pattern stage (`Counter` is unbound), yet the
personality profile has already been replaced — the pre-call value was the
empty dict `{}` and afterwards it is the default trait scaffold — so the
three replacements are not atomic. -/
theorem trainPersonality_nonatomic_counterexample :
    (trainPersonality (fun _ => []) initEngineState
        [⟨some "hello there my friend", false⟩]).2
      = TrainResult.failure counterNameError ∧
    (trainPersonality (fun _ => []) initEngineState
        [⟨some "hello there my friend", false⟩]).1.personalityProfile
      = some traitsScaffold ∧
    initEngineState.personalityProfile = none :=
  ⟨rfl, rfl, rfl⟩

/-- C2 (amended): `train_personality` replaces its three pieces of state
sequentially, not atomically.  On any failure the style patterns, the
embedding store, the texts and the trained flag keep their pre-call values;
the personality profile keeps its pre-call value when some sample carries a
personality annotation (the failure then precedes its assignment) but has
already been replaced by the default scaffold when none does; and any
successful run (possible only when no sample has a personality annotation
or nonempty content, since `Counter` is unbound) replaces profile and style
with the default scaffolds while never replacing the embedding store. -/
theorem trainPersonality_sequential (encode : List String → List (List ℚ))
    (st : EngineState) (data : List TrainingSample) :
    (∀ e, (trainPersonality encode st data).2 = TrainResult.failure e →
      (trainPersonality encode st data).1.stylePatterns = st.stylePatterns ∧
      (trainPersonality encode st data).1.embeddings = st.embeddings ∧
      (trainPersonality encode st data).1.texts = st.texts ∧
      (trainPersonality encode st data).1.trained = st.trained) ∧
    (data.any (·.hasPersonality) = true →
      (trainPersonality encode st data).1.personalityProfile = st.personalityProfile) ∧
    (data.any (·.hasPersonality) = false →
      (trainPersonality encode st data).1.personalityProfile = some traitsScaffold) ∧
    (∀ n, (trainPersonality encode st data).2 = TrainResult.success n →
      (trainPersonality encode st data).1.embeddings = st.embeddings ∧
      (trainPersonality encode st data).1.texts = st.texts ∧
      (trainPersonality encode st data).1.stylePatterns = some patternsScaffold ∧
      (trainPersonality encode st data).1.trained = true) := by
  by_cases hp : data.any (·.hasPersonality) = true
  · have hextract : extractPersonalityTraits data = Except.error counterNameError := by
      simp [extractPersonalityTraits, hp]
    simp [trainPersonality, hextract, hp]
  · have hp2 : data.any (·.hasPersonality) = false := by
      cases h : data.any (·.hasPersonality)
      · rfl
      · exact absurd h hp
    have hextract : extractPersonalityTraits data = Except.ok traitsScaffold := by
      simp [extractPersonalityTraits, hp2]
    by_cases hc : data.any (fun s => s.content.getD "" ≠ "") = true
    · have hcP : ∃ x ∈ data, ¬x.content.getD "" = "" := by simpa using hc
      have hstyle : buildStylePatterns data = Except.error counterNameError := by
        simp [buildStylePatterns, hcP]
      simp [trainPersonality, hextract, hstyle, hp2]
    · have hc2 : data.any (fun s => s.content.getD "" ≠ "") = false := by
        cases h : data.any (fun s => s.content.getD "" ≠ "")
        · rfl
        · exact absurd h hc
      have hcn : ¬∃ x ∈ data, ¬x.content.getD "" = "" := by simpa using hc2
      have hstyle : buildStylePatterns data = Except.ok patternsScaffold := by
        simp [buildStylePatterns, hcn]
      have hED : ∀ s, buildEmbeddingDatabase encode s data = s := fun s =>
        buildEmbeddingDatabase_no_content encode s data hc2
      simp [trainPersonality, hextract, hstyle, hED, hp2]

/-- Witness for C2 (amended): a concrete failing run keeps the style
patterns but replaces the personality profile. -/
theorem trainPersonality_sequential_witness :
    (trainPersonality (fun _ => []) initEngineState
        [⟨some "hello world again", false⟩]).1.stylePatterns
      = initEngineState.stylePatterns ∧
    (trainPersonality (fun _ => []) initEngineState
        [⟨some "hello world again", false⟩]).1.personalityProfile
      = some traitsScaffold :=
  ⟨((trainPersonality_sequential (fun _ => []) initEngineState
      [⟨some "hello world again", false⟩]).1 counterNameError rfl).1,
   (trainPersonality_sequential (fun _ => []) initEngineState
      [⟨some "hello world again", false⟩]).2.2.1 (by decide)⟩

/-- C3 counterexample: `train_personality([])` succeeds (both `Counter`
call sites are skipped on empty input) and unconditionally sets
`self.trained = True`, so `is_trained()` afterwards returns true — not
false as the claim states. -/
theorem trainEmpty_isTrained_counterexample :
    isTrained (trainPersonality (fun _ => []) initEngineState []).1 = true := rfl

/-- C3 (amended): after `train_personality([])` the profile and style
patterns are the default empty scaffolds, but the run succeeds and marks
the model trained (`is_trained()` returns true); `generate_response` then
does not return the "still learning" placeholder — it reaches
`self.embeddings.size` on the initial plain list, the resulting
`AttributeError` is caught, and the error fallback "Sorry, I\x27m having
trouble responding right now." is returned instead. -/
theorem trainEmpty_behavior :
    (trainPersonality (fun _ => []) initEngineState []).2 = TrainResult.success 0 ∧
    (trainPersonality (fun _ => []) initEngineState []).1.personalityProfile
      = some traitsScaffold ∧
    (trainPersonality (fun _ => []) initEngineState []).1.stylePatterns
      = some patternsScaffold ∧
    isTrained (trainPersonality (fun _ => []) initEngineState []).1 = true ∧
    generateResponse (fun _ _ _ _ => none) 0
        (trainPersonality (fun _ => []) initEngineState []).1 (fun _ => [])
        "hey" "" "default"
      = "Sorry, I\x27m having trouble responding right now." :=
  ⟨rfl, rfl, rfl, rfl, rfl⟩

/-- C1: whenever the auto-reply flag is disabled, `process_incoming_message`
returns the manual-review outcome with reason "Auto-reply disabled" and
invokes neither `_generate_response` nor `_send_response` (both
instrumented call counts are zero). -/
theorem processAutoReplyDisabled
    (llm : String → String → String → List String → Option String) (pick : ℕ)
    (encode1 : String → List ℚ) (now : String) (rg : RGState)
    (sm : Option SafetyState) (message : Message) (platform : String)
    (h : rg.autoReplyEnabled = false) :
    (processIncomingMessage llm pick encode1 now rg sm message platform).result.action
      = "manual_review" ∧
    (processIncomingMessage llm pick encode1 now rg sm message platform).result.reason
      = some "Auto-reply disabled" ∧
    (processIncomingMessage llm pick encode1 now rg sm message platform).genCalls = 0 ∧
    (processIncomingMessage llm pick encode1 now rg sm message platform).sendCalls = 0 := by
  simp [processIncomingMessage, h]

/-- Witness for C1 at the initial generator state (auto-reply off). -/
theorem processAutoReplyDisabled_witness :
    (processIncomingMessage (fun _ _ _ _ => none) 0 (fun _ => []) "t0" initRGState none
        ⟨some "alice", some "discord", some "hey", some ""⟩ "discord").result.action
      = "manual_review" ∧
    (processIncomingMessage (fun _ _ _ _ => none) 0 (fun _ => []) "t0" initRGState none
        ⟨some "alice", some "discord", some "hey", some ""⟩ "discord").result.reason
      = some "Auto-reply disabled" ∧
    (processIncomingMessage (fun _ _ _ _ => none) 0 (fun _ => []) "t0" initRGState none
        ⟨some "alice", some "discord", some "hey", some ""⟩ "discord").genCalls = 0 ∧
    (processIncomingMessage (fun _ _ _ _ => none) 0 (fun _ => []) "t0" initRGState none
        ⟨some "alice", some "discord", some "hey", some ""⟩ "discord").sendCalls = 0 :=
  processAutoReplyDisabled (fun _ _ _ _ => none) 0 (fun _ => []) "t0" initRGState none
    ⟨some "alice", some "discord", some "hey", some ""⟩ "discord" rfl

/-- C10: `StyleEmbedding.find_similar` applies no similarity threshold — on
a non-empty index of `n` records it returns exactly `min top_k n` results,
whatever the similarity values, and each result carries the text,
similarity and original index of the record. -/
theorem findSimilarStyle_no_threshold (st : StyleState) (queryEmbedding : List ℚ)
    (topK : ℕ) (h : st.embeddings ≠ []) :
    (findSimilarStyle st queryEmbedding topK).length = min topK st.embeddings.length ∧
    ∀ r ∈ findSimilarStyle st queryEmbedding topK,
      r.index < st.embeddings.length ∧
      r.text = st.texts.getD r.index "" ∧
      r.similarity = simVal queryEmbedding (st.embeddings.getD r.index []) := by
  have hne : st.embeddings.isEmpty = false := by
    cases hE : st.embeddings with
    | nil => exact absurd hE h
    | cons a l => rfl
  constructor
  · simp only [findSimilarStyle, hne, Bool.false_eq_true, if_false, List.length_map,
      List.length_take, sortBySimDesc]
    rw [(List.perm_insertionSort _ _).length_eq]
    simp
  · intro r hr
    simp only [findSimilarStyle, hne, Bool.false_eq_true, if_false, List.mem_map] at hr
    obtain ⟨p, hp, rfl⟩ := hr
    have hp2 : p ∈ sortBySimDesc ((List.range st.embeddings.length).map fun i =>
        (i, simVal queryEmbedding (st.embeddings.getD i []))) :=
      List.mem_of_mem_take hp
    rw [sortBySimDesc, List.mem_insertionSort, List.mem_map] at hp2
    obtain ⟨i, hi, rfl⟩ := hp2
    rw [List.mem_range] at hi
    exact ⟨hi, rfl, rfl⟩

/-- Witness for C10 on a one-record index. -/
theorem findSimilarStyle_no_threshold_witness :
    (findSimilarStyle ⟨[[1]], ["yo"]⟩ [1] 5).length = min 5 ([[ (1:ℚ) ]] : List (List ℚ)).length ∧
    ∀ r ∈ findSimilarStyle ⟨[[1]], ["yo"]⟩ [1] 5,
      r.index < ([[ (1:ℚ) ]] : List (List ℚ)).length ∧
      r.text = (["yo"] : List String).getD r.index "" ∧
      r.similarity = simVal [1] (([[ (1:ℚ) ]] : List (List ℚ)).getD r.index []) :=
  findSimilarStyle_no_threshold ⟨[[1]], ["yo"]⟩ [1] 5 (by decide)

/-- C4 (amended): retrieval scores every record by the raw dot product with
the query (not the cosine — there is no normalisation) and keeps, among the
five records of greatest score, those with score strictly above `3/10`:
the returned texts are backed by distinct valid indices, come in
nonincreasing-score order, number at most five, each scores above the
threshold, and — completeness — a record scoring above the threshold is
left out only when the five records returned all score at least as high,
so in particular the result is nonempty whenever any record scores above
the threshold.  On the concrete index with rows `(1)` and `(2)` and query
`(1)` both texts are returned, higher score first.  (The order among
records of equal score follows the unstable numpy quicksort and is
specified neither by the code nor here.) -/
theorem findSimilarCore_spec (embs : List (List ℚ)) (texts : List String) (q : List ℚ) :
    (∃ kept : List ℕ,
      findSimilarCore embs texts q = kept.map (fun i => texts.getD i "") ∧
      kept.Nodup ∧
      (∀ i ∈ kept, i < embs.length) ∧
      kept.length ≤ 5 ∧
      (∀ i ∈ kept, (3 : ℚ)/10 < (simScores embs q).getD i 0) ∧
      kept.Chain' (fun i j => (simScores embs q).getD j 0 ≤ (simScores embs q).getD i 0) ∧
      (∀ j, j < embs.length → (3 : ℚ)/10 < (simScores embs q).getD j 0 → j ∉ kept →
        kept.length = 5 ∧
        ∀ i ∈ kept, (simScores embs q).getD j 0 ≤ (simScores embs q).getD i 0) ∧
      ((∃ j, j < embs.length ∧ (3 : ℚ)/10 < (simScores embs q).getD j 0) → kept ≠ [])) ∧
    findSimilarCore [[1], [2]] ["low", "high"] [1] = ["high", "low"] := by
  have hlen_sims : (simScores embs q).length = embs.length := by simp [simScores]
  have hperm : List.Perm (argsortAsc (simScores embs q))
      (List.range (simScores embs q).length) :=
    List.perm_insertionSort _ _
  have hAlen : (argsortAsc (simScores embs q)).length = embs.length := by
    rw [hperm.length_eq, List.length_range, hlen_sims]
  have hAnodup : (argsortAsc (simScores embs q)).Nodup :=
    (hperm.nodup_iff).mpr (List.nodup_range _)
  have hAmem : ∀ {i : ℕ}, i ∈ argsortAsc (simScores embs q) ↔ i < embs.length := by
    intro i
    rw [hperm.mem_iff, List.mem_range, hlen_sims]
  haveI inst1 : IsTotal ℕ
      (fun i j => (simScores embs q).getD i 0 ≤ (simScores embs q).getD j 0) :=
    ⟨fun a b => le_total _ _⟩
  haveI inst2 : IsTrans ℕ
      (fun i j => (simScores embs q).getD i 0 ≤ (simScores embs q).getD j 0) :=
    ⟨fun a b c hab hbc => le_trans hab hbc⟩
  have hSorted : List.Pairwise
      (fun i j => (simScores embs q).getD i 0 ≤ (simScores embs q).getD j 0)
      (argsortAsc (simScores embs q)) :=
    List.sorted_insertionSort _ _
  have hTdef : topFiveDesc (simScores embs q)
      = ((argsortAsc (simScores embs q)).drop
          ((argsortAsc (simScores embs q)).length - 5)).reverse := rfl
  have hTopMemDrop : ∀ {i : ℕ}, i ∈ topFiveDesc (simScores embs q) ↔
      i ∈ (argsortAsc (simScores embs q)).drop ((argsortAsc (simScores embs q)).length - 5) := by
    intro i
    rw [hTdef, List.mem_reverse]
  have hsplit := List.take_append_drop
    ((argsortAsc (simScores embs q)).length - 5) (argsortAsc (simScores embs q))
  have hpw2 : List.Pairwise
      (fun i j => (simScores embs q).getD i 0 ≤ (simScores embs q).getD j 0)
      ((argsortAsc (simScores embs q)).take ((argsortAsc (simScores embs q)).length - 5) ++
       (argsortAsc (simScores embs q)).drop ((argsortAsc (simScores embs q)).length - 5)) := by
    rw [hsplit]
    exact hSorted
  have hcross := (List.pairwise_append.mp hpw2).2.2
  -- the kept index list and its properties
  have hcomplete : ∀ j, j < embs.length → (3 : ℚ)/10 < (simScores embs q).getD j 0 →
      j ∉ (topFiveDesc (simScores embs q)).filter
        (fun i => (3 : ℚ)/10 < (simScores embs q).getD i 0) →
      ((topFiveDesc (simScores embs q)).filter
        (fun i => (3 : ℚ)/10 < (simScores embs q).getD i 0)).length = 5 ∧
      ∀ i ∈ (topFiveDesc (simScores embs q)).filter
        (fun i => (3 : ℚ)/10 < (simScores embs q).getD i 0),
        (simScores embs q).getD j 0 ≤ (simScores embs q).getD i 0 := by
    intro j hj hpred hnot
    have hjdrop : j ∉ (argsortAsc (simScores embs q)).drop
        ((argsortAsc (simScores embs q)).length - 5) := by
      intro hmem
      exact hnot (List.mem_filter.mpr ⟨hTopMemDrop.mpr hmem, decide_eq_true hpred⟩)
    have hjtake : j ∈ (argsortAsc (simScores embs q)).take
        ((argsortAsc (simScores embs q)).length - 5) := by
      have hjA : j ∈ argsortAsc (simScores embs q) := hAmem.mpr hj
      rw [← hsplit] at hjA
      rcases List.mem_append.mp hjA with h | h
      · exact h
      · exact absurd h hjdrop
    have hall : ∀ i ∈ topFiveDesc (simScores embs q),
        (simScores embs q).getD j 0 ≤ (simScores embs q).getD i 0 := by
      intro i hi
      exact hcross j hjtake i (hTopMemDrop.mp hi)
    have hkeq : (topFiveDesc (simScores embs q)).filter
        (fun i => (3 : ℚ)/10 < (simScores embs q).getD i 0)
        = topFiveDesc (simScores embs q) :=
      List.filter_eq_self.mpr fun a ha =>
        decide_eq_true (lt_of_lt_of_le hpred (hall a ha))
    have h5 : 5 < (argsortAsc (simScores embs q)).length := by
      by_contra hle
      have h0 : (argsortAsc (simScores embs q)).length - 5 = 0 := by omega
      rw [h0, List.take_zero] at hjtake
      exact absurd hjtake (List.not_mem_nil j)
    refine ⟨?_, ?_⟩
    · rw [hkeq, hTdef, List.length_reverse, List.length_drop]
      omega
    · intro i hi
      exact hall i (List.mem_filter.mp hi).1
  refine ⟨⟨(topFiveDesc (simScores embs q)).filter
      (fun i => (3 : ℚ)/10 < (simScores embs q).getD i 0),
      rfl, ?_, ?_, ?_, ?_, ?_, hcomplete, ?_⟩, ?_⟩
  · exact List.Nodup.filter _
      ((hTdef ▸ List.nodup_reverse.mpr (hAnodup.sublist (List.drop_sublist _ _))))
  · intro i hi
    have hiT := (List.mem_filter.mp hi).1
    exact hAmem.mp (List.mem_of_mem_drop (hTopMemDrop.mp hiT))
  · calc ((topFiveDesc (simScores embs q)).filter
          (fun i => decide ((3 : ℚ)/10 < (simScores embs q).getD i 0))).length
        ≤ (topFiveDesc (simScores embs q)).length := List.length_filter_le _ _
      _ ≤ 5 := by
          rw [hTdef, List.length_reverse, List.length_drop]
          omega
  · intro i hi
    exact of_decide_eq_true (List.mem_filter.mp hi).2
  · have hDrop : List.Pairwise
        (fun i j => (simScores embs q).getD i 0 ≤ (simScores embs q).getD j 0)
        ((argsortAsc (simScores embs q)).drop
          ((argsortAsc (simScores embs q)).length - 5)) :=
      List.Pairwise.sublist (List.drop_sublist _ _) hSorted
    have hRev : List.Pairwise
        (fun i j => (simScores embs q).getD j 0 ≤ (simScores embs q).getD i 0)
        (topFiveDesc (simScores embs q)) := by
      rw [hTdef, List.pairwise_reverse]
      exact hDrop
    exact (List.Pairwise.sublist (List.filter_sublist _) hRev).chain'
  · rintro ⟨j, hj, hpred⟩ hnil
    have hjnot : j ∉ (topFiveDesc (simScores embs q)).filter
        (fun i => (3 : ℚ)/10 < (simScores embs q).getD i 0) := by
      rw [hnil]
      exact List.not_mem_nil j
    have h5eq := (hcomplete j hj hpred hjnot).1
    rw [hnil] at h5eq
    simp at h5eq
  · have hs2 : simScores [[(1:ℚ)], [2]] [1] = [1, 2] := by
      norm_num [simScores, dotProd]
    have ha2 : argsortAsc [(1:ℚ), 2] = [0, 1] := by
      norm_num [argsortAsc, List.range_succ, List.range_zero, List.insertionSort,
        List.orderedInsert, List.getD_cons_zero, List.getD_cons_succ]
    have ht2 : topFiveDesc [(1:ℚ), 2] = [1, 0] := by
      rw [topFiveDesc, ha2]
      rfl
    simp only [findSimilarCore]
    rw [hs2, ht2]
    norm_num [List.getD_cons_zero, List.getD_cons_succ]

/-- C4 counterexample: for the stored vector `(1/5, 0)` and query `(1, 0)`
the cosine similarity is `1` (the dot product is positive and its square
exceeds `(3/10)^2` times the product of the squared norms), which is
strictly above the `0.30` threshold, yet retrieval keeps nothing: the code
thresholds the raw dot product `1/5 ≤ 3/10`, not the cosine. -/
theorem findSimilarCore_not_cosine_counterexample :
    findSimilarCore [[1/5, 0]] ["sounds good"] [1, 0] = [] ∧
    0 < dotProd [1/5, 0] [1, 0] ∧
    (3 : ℚ)/10 * ((3 : ℚ)/10) * (dotProd [1/5, 0] [1/5, 0] * dotProd [1, 0] [1, 0])
      < dotProd [1/5, 0] [1, 0] * dotProd [1/5, 0] [1, 0] := by
  refine ⟨?_, by norm_num [dotProd], by norm_num [dotProd]⟩
  have hsims : simScores [[(1:ℚ)/5, 0]] [(1:ℚ), 0] = [(1:ℚ)/5] := by
    norm_num [simScores, dotProd]
  have hsort : argsortAsc [(1:ℚ)/5] = [0] := by
    norm_num [argsortAsc, List.range_succ, List.range_zero, List.insertionSort,
      List.orderedInsert]
  have htop : topFiveDesc [(1:ℚ)/5] = [0] := by
    rw [topFiveDesc, hsort]
    rfl
  simp only [findSimilarCore]
  rw [hsims, htop]
  norm_num
